import Mathlib

set_option maxRecDepth 10000

/-! Verification of the UMI example/testbench protocol model against the
reference traffic in src/lumi/testbench/test_lumi.py.  The packet codec,
queue transport and transaction engine live in the external switchboard
library; they are modelled here from the specification, while the reference
traffic, the cleanup loop, the parameter list of main and the topology check
of build_testbench are embedded from the source file itself. -/

/-- A byte-addressable memory, modelled as a total map from 64-bit style
natural addresses to byte values. -/
def Mem : Type := Nat → Nat

/-- The all-zero initial memory of a fresh simulation run. -/
def memZero : Mem := fun _ => 0

/-- Modelled from the spec: the Packet Codec encodes every multi-byte scalar
field little-endian (spec 4.1); `encodeLE w v` is the `w`-byte little-endian
byte sequence of `v`, byte `i` being `v / 256 ^ i % 256`. -/
def encodeLE : Nat → Nat → List Nat
  | 0, _ => []
  | w + 1, v => v % 256 :: encodeLE w (v / 256)

/-- Modelled from the spec: the Packet Codec decodes a little-endian byte
sequence back into an unsigned integer (spec 4.1). -/
def decodeLE : List Nat → Nat
  | [] => 0
  | b :: bs => b + 256 * decodeLE bs

/-- Store a byte sequence at consecutive addresses starting at `addr`
(the device-side effect of a WRITE frame). -/
def writeBytes (mem : Mem) (addr : Nat) : List Nat → Mem
  | [] => mem
  | b :: bs => writeBytes (fun x => if x = addr then b else mem x) (addr + 1) bs

/-- Load `n` bytes from consecutive addresses starting at `addr`
(the device-side effect of a READ_REQUEST frame). -/
def readBytes (mem : Mem) (addr : Nat) : Nat → List Nat
  | 0 => []
  | n + 1 => mem addr :: readBytes mem (addr + 1) n

/-- One memory operation of the reference traffic, as carried by one frame. -/
inductive Op
  | write (addr : Nat) (data : List Nat)
  | read (addr : Nat) (len : Nat)

/-- Modelled from the spec: frames sent on a tx queue are delivered and served
strictly FIFO (spec 5); `runOps` applies writes to the memory in issue order
and pairs each read with the bytes held at its point in the sequence,
returning the final memory and the list of read results in issue order. -/
def runOps (mem : Mem) : List Op → Mem × List (List Nat)
  | [] => (mem, [])
  | Op.write a d :: rest => runOps (writeBytes mem a d) rest
  | Op.read a n :: rest =>
      let r := runOps mem rest
      (r.1, readBytes mem a n :: r.2)

/-- The reference traffic of main on the umi/host endpoints, in source order
(test_lumi.py lines 128-166 for the writes, 138-152 and 171-228 for the
reads); the four 1-byte writes carry the bytes of the uint8 view of
0xBAADF00D, the 2-byte buffer write at 0x40 carries the uint16 view of
0xB0BACAFE. -/
def refTraffic : List Op :=
  [Op.write 0x70 (encodeLE 8 0xBAADD70DCAFEFACE),
   Op.write 0x0000110000000000 (encodeLE 4 0xABB00BBA),
   Op.write 0x80 (encodeLE 8 0xBAADD80DCAFEFACE),
   Op.write 0x0000110000000010 (encodeLE 4 0xABB10BBA),
   Op.write 0x90 (encodeLE 8 0xBAADD90DCAFEFACE),
   Op.write 0x0000110000000020 (encodeLE 4 0xABB20BBA),
   Op.write 0xA0 (encodeLE 8 0xBAADDA0DCAFEFACE),
   Op.write 0x0000110000000030 (encodeLE 4 0xABB30BBA),
   Op.write 0xB0 (encodeLE 8 0xBAADDB0DCAFEFACE),
   Op.read 0x0000110000000000 4,
   Op.read 0x0000110000000010 4,
   Op.read 0x0000110000000020 4,
   Op.read 0x0000110000000030 4,
   Op.write 0x10 [0xBAADF00D / 256 ^ 0 % 256],
   Op.write 0x18 [0xBAADF00D / 256 ^ 1 % 256],
   Op.write 0x20 [0xBAADF00D / 256 ^ 2 % 256],
   Op.write 0x28 [0xBAADF00D / 256 ^ 3 % 256],
   Op.write 0x40 (encodeLE 4 0xB0BACAFE),
   Op.write 0x50 (encodeLE 4 0xDEADBEEF),
   Op.write 0x60 (encodeLE 8 0xBAADD00DCAFEFACE),
   Op.read 0x10 1,
   Op.read 0x18 1,
   Op.read 0x20 1,
   Op.read 0x28 1,
   Op.read 0x40 4,
   Op.read 0x50 4,
   Op.read 0x60 8,
   Op.read 0x70 8,
   Op.read 0x80 8,
   Op.read 0x90 8,
   Op.read 0xA0 8,
   Op.read 0xB0 8]

/-- The read results of the reference traffic on a fresh zero memory,
in issue order. -/
def refResults : List (List Nat) := (runOps memZero refTraffic).2

/-- The four opcodes of the transaction packet (spec 3, Data Model). -/
inductive Opcode
  | WRITE
  | WRITE_POSTED
  | READ_REQUEST
  | READ_RESPONSE
  deriving DecidableEq

/-- Modelled from the spec: a transaction Packet (spec 3) — opcode, 64-bit
target address, byte length, payload of exactly `length` bytes, and the
source address used for response routing. -/
structure Packet where
  opcode : Opcode
  address : Nat
  length : Nat
  payload : List Nat
  srcaddr : Nat
  deriving DecidableEq

/-- Modelled from the spec: an Endpoint owns a tx queue (requests out) and an
rx queue (responses in), each a FIFO of frames (spec 3, 4.4). -/
structure Endpoint where
  tx : List Packet
  rx : List Packet
  deriving DecidableEq

/-- Modelled from the spec: the Transaction Engine write operation (spec 4.3):
it builds one WRITE or WRITE_POSTED frame for the payload, appends it to the
tx queue and returns at once; no response is awaited for either flavour, so
the rx queue is left untouched and the posted flag only selects the opcode.-/
def engineWrite (ep : Endpoint) (addr : Nat) (data : List Nat) (src : Nat)
    (posted : Bool) : Endpoint :=
  { ep with
    tx := ep.tx ++
      [{ opcode := if posted then Opcode.WRITE_POSTED else Opcode.WRITE,
         address := addr, length := data.length, payload := data,
         srcaddr := src }] }

/-- Modelled from the spec: the READ_REQUEST frame the Transaction Engine
issues for `read(addr, len, srcaddr)` (spec 4.3), built uniformly for every
address. -/
def engineReadRequest (addr len src : Nat) : Packet :=
  { opcode := Opcode.READ_REQUEST, address := addr, length := len,
    payload := [], srcaddr := src }

/-- The error taxonomy relevant to the blocking read path (spec 7). -/
inductive UmiError
  | Timeout
  | ProtocolMismatch
  deriving DecidableEq

/-- Modelled from the spec: the blocking receive of a non-posted read
(spec 4.3, 5): the engine polls the rx queue once per tick until a
READ_RESPONSE whose embedded address matches the source address arrives; a
response of unexpected length fails with ProtocolMismatch; when the fuel —
the configured timeout bound — runs out it returns Timeout, with no retry. -/
def readPoll (poll : Nat → Option Packet) (srcaddr len : Nat) :
    Nat → Except UmiError (List Nat)
  | 0 => Except.error UmiError.Timeout
  | fuel + 1 =>
    match poll fuel with
    | none => readPoll poll srcaddr len fuel
    | some p =>
      if p.opcode = Opcode.READ_RESPONSE ∧ p.address = srcaddr then
        if p.length = len then Except.ok p.payload
        else Except.error UmiError.ProtocolMismatch
      else readPoll poll srcaddr len fuel

/-- Modelled from the spec: delete_queue / `reset(identifier)` (spec 4.2)
deletes any residual named-queue state and must be callable when the queue
does not exist (no-op, not an error); the queue store is the list of
existing queue identifiers. -/
def delete_queue (qs : List String) (id : String) :
    Except UmiError (List String) :=
  Except.ok (qs.erase id)

/-- The cleanup loop of main (test_lumi.py lines 56-58): delete_queue applied
to each identifier of the loop list in turn, stopping at the first error. -/
def runCleanup (qs : List String) : List String → Except UmiError (List String)
  | [] => Except.ok qs
  | id :: rest =>
    match delete_queue qs id with
    | Except.ok qs2 => runCleanup qs2 rest
    | Except.error e => Except.error e

/-- The queue identifiers main's cleanup loop passes to delete_queue, in
order (test_lumi.py line 57, with the default identifier values): host2dut
and dut2host each appear twice. -/
def cleanupIds : List String :=
  ["host2dut_0.q", "dut2host_0.q", "sb2dut_0.q", "dut2sb_0.q",
   "host2dut_0.q", "dut2host_0.q"]

/-- The three endpoints main instantiates (test_lumi.py lines 70-72). -/
inductive EpName
  | sb
  | umi
  | host
  deriving DecidableEq

/-- Whether an access is a write or a read. -/
inductive AccessKind
  | write
  | read
  deriving DecidableEq

/-- One access of the reference traffic: the endpoint it is issued on, its
kind, its target address, whether a write passed posted=True, and whether a
read uses the blocking form. -/
structure Access where
  ep : EpName
  kind : AccessKind
  addr : Nat
  posted : Bool
  blocking : Bool
  deriving DecidableEq

/-- Every access main issues, in source order (test_lumi.py lines 75-228):
the side-band configuration traffic on sb (with three extra sb accesses when
topo is 3d, lines 84-94), then the umi/host data traffic. -/
def mainAccesses (topo : String) : List Access :=
  [{ ep := EpName.sb, kind := AccessKind.write, addr := 0x7000000C,
     posted := true, blocking := true },
   { ep := EpName.sb, kind := AccessKind.read, addr := 0x70000000,
     posted := false, blocking := true }] ++
  (if topo = "3d" then
    [{ ep := EpName.sb, kind := AccessKind.write, addr := 0x70000000,
       posted := true, blocking := true },
     { ep := EpName.sb, kind := AccessKind.read, addr := 0x70000000,
       posted := false, blocking := true },
     { ep := EpName.sb, kind := AccessKind.write, addr := 0x60000000,
       posted := true, blocking := true }]
   else []) ++
  [{ ep := EpName.sb, kind := AccessKind.write, addr := 0x70000014,
     posted := true, blocking := true },
   { ep := EpName.sb, kind := AccessKind.write, addr := 0x60000008,
     posted := true, blocking := true },
   { ep := EpName.sb, kind := AccessKind.write, addr := 0x60000014,
     posted := true, blocking := true },
   { ep := EpName.sb, kind := AccessKind.write, addr := 0x60000010,
     posted := true, blocking := true },
   { ep := EpName.sb, kind := AccessKind.write, addr := 0x70000010,
     posted := true, blocking := true },
   { ep := EpName.sb, kind := AccessKind.write, addr := 0x60000010,
     posted := true, blocking := true },
   { ep := EpName.sb, kind := AccessKind.write, addr := 0x70000010,
     posted := true, blocking := true },
   { ep := EpName.sb, kind := AccessKind.read, addr := 0x60000000,
     posted := false, blocking := true },
   { ep := EpName.umi, kind := AccessKind.write, addr := 0x70,
     posted := false, blocking := true },
   { ep := EpName.host, kind := AccessKind.write, addr := 0x0000110000000000,
     posted := false, blocking := true },
   { ep := EpName.umi, kind := AccessKind.write, addr := 0x80,
     posted := false, blocking := true },
   { ep := EpName.host, kind := AccessKind.write, addr := 0x0000110000000010,
     posted := false, blocking := true },
   { ep := EpName.umi, kind := AccessKind.write, addr := 0x90,
     posted := false, blocking := true },
   { ep := EpName.host, kind := AccessKind.write, addr := 0x0000110000000020,
     posted := false, blocking := true },
   { ep := EpName.umi, kind := AccessKind.write, addr := 0xA0,
     posted := false, blocking := true },
   { ep := EpName.host, kind := AccessKind.write, addr := 0x0000110000000030,
     posted := false, blocking := true },
   { ep := EpName.umi, kind := AccessKind.write, addr := 0xB0,
     posted := false, blocking := true },
   { ep := EpName.host, kind := AccessKind.read, addr := 0x0000110000000000,
     posted := false, blocking := true },
   { ep := EpName.host, kind := AccessKind.read, addr := 0x0000110000000010,
     posted := false, blocking := true },
   { ep := EpName.host, kind := AccessKind.read, addr := 0x0000110000000020,
     posted := false, blocking := true },
   { ep := EpName.host, kind := AccessKind.read, addr := 0x0000110000000030,
     posted := false, blocking := true },
   { ep := EpName.umi, kind := AccessKind.write, addr := 0x10,
     posted := false, blocking := true },
   { ep := EpName.umi, kind := AccessKind.write, addr := 0x18,
     posted := false, blocking := true },
   { ep := EpName.umi, kind := AccessKind.write, addr := 0x20,
     posted := false, blocking := true },
   { ep := EpName.umi, kind := AccessKind.write, addr := 0x28,
     posted := false, blocking := true },
   { ep := EpName.umi, kind := AccessKind.write, addr := 0x40,
     posted := false, blocking := true },
   { ep := EpName.umi, kind := AccessKind.write, addr := 0x50,
     posted := false, blocking := true },
   { ep := EpName.umi, kind := AccessKind.write, addr := 0x60,
     posted := false, blocking := true },
   { ep := EpName.umi, kind := AccessKind.read, addr := 0x10,
     posted := false, blocking := true },
   { ep := EpName.umi, kind := AccessKind.read, addr := 0x18,
     posted := false, blocking := true },
   { ep := EpName.umi, kind := AccessKind.read, addr := 0x20,
     posted := false, blocking := true },
   { ep := EpName.umi, kind := AccessKind.read, addr := 0x28,
     posted := false, blocking := true },
   { ep := EpName.umi, kind := AccessKind.read, addr := 0x40,
     posted := false, blocking := true },
   { ep := EpName.umi, kind := AccessKind.read, addr := 0x50,
     posted := false, blocking := true },
   { ep := EpName.umi, kind := AccessKind.read, addr := 0x60,
     posted := false, blocking := true },
   { ep := EpName.umi, kind := AccessKind.read, addr := 0x70,
     posted := false, blocking := true },
   { ep := EpName.umi, kind := AccessKind.read, addr := 0x80,
     posted := false, blocking := true },
   { ep := EpName.umi, kind := AccessKind.read, addr := 0x90,
     posted := false, blocking := true },
   { ep := EpName.umi, kind := AccessKind.read, addr := 0xA0,
     posted := false, blocking := true },
   { ep := EpName.umi, kind := AccessKind.read, addr := 0xB0,
     posted := false, blocking := true }]

/-- The parameter names of the def statement of main, in order
(test_lumi.py line 55). -/
def mainParamNames : List String :=
  ["topo", "vldmode", "rdymode", "host2dut", "dut2host", "sb2dut", "dut2sb",
   "host2dut", "dut2host"]

/-- The externally visible steps of build_testbench, with the SbDut side
effects abstracted to trace actions. -/
inductive BuildAction
  | setupDut
  | inputFile (name : String)
  | configureInputsAndTool
  | runBuild
  | findResult
  deriving DecidableEq

/-- build_testbench (test_lumi.py lines 14-52): it creates the SbDut, adds
testbench_lumi.sv, then validates the topology — raising ValueError
with message Invalid topology for anything other than 2d or 3d — and only
for a valid topology goes on to configure the inputs and tool, run the
build (dut.run, line 50) and look up the compiled simulator. -/
def build_testbench (topo : String) : List BuildAction × Except String String :=
  if topo = "2d" ∨ topo = "3d" then
    ([BuildAction.setupDut, BuildAction.inputFile "testbench_lumi.sv",
      BuildAction.configureInputsAndTool, BuildAction.runBuild,
      BuildAction.findResult],
     Except.ok "vexe")
  else
    ([BuildAction.setupDut, BuildAction.inputFile "testbench_lumi.sv"],
     Except.error "Invalid topology")

example : refResults.length = 16 := by decide

example : (refResults.drop 10).map decodeLE =
    [0xBAADD00DCAFEFACE, 0xBAADD70DCAFEFACE, 0xBAADD80DCAFEFACE,
     0xBAADD90DCAFEFACE, 0xBAADDA0DCAFEFACE, 0xBAADDB0DCAFEFACE] := by decide

/-! Helper lemmas about the memory and the codec. -/

theorem writeBytes_of_lt (bs : List Nat) :
    ∀ (mem : Mem) (addr x : Nat), x < addr → writeBytes mem addr bs x = mem x := by
  induction bs with
  | nil => intro mem addr x _; rfl
  | cons b bs ih =>
    intro mem addr x hx
    show writeBytes (fun y => if y = addr then b else mem y) (addr + 1) bs x = mem x
    rw [ih _ (addr + 1) x (Nat.lt_succ_of_lt hx)]
    simp [Nat.ne_of_lt hx]

theorem writeBytes_of_ge (bs : List Nat) :
    ∀ (mem : Mem) (addr x : Nat), addr + bs.length ≤ x →
      writeBytes mem addr bs x = mem x := by
  induction bs with
  | nil => intro mem addr x _; rfl
  | cons b bs ih =>
    intro mem addr x hx
    show writeBytes (fun y => if y = addr then b else mem y) (addr + 1) bs x = mem x
    rw [ih _ (addr + 1) x (by simpa [Nat.add_comm, Nat.add_assoc, Nat.add_left_comm] using hx)]
    have : x ≠ addr := by
      intro h
      subst h
      simp at hx
    simp [this]

theorem readBytes_writeBytes (bs : List Nat) :
    ∀ (mem : Mem) (addr : Nat),
      readBytes (writeBytes mem addr bs) addr bs.length = bs := by
  induction bs with
  | nil => intro mem addr; rfl
  | cons b bs ih =>
    intro mem addr
    show readBytes (writeBytes (fun y => if y = addr then b else mem y) (addr + 1) bs) addr (bs.length + 1) = b :: bs
    rw [readBytes]
    rw [writeBytes_of_lt bs _ (addr + 1) addr (Nat.lt_succ_self addr)]
    rw [ih _ (addr + 1)]
    simp

theorem writeBytes_getD (bs : List Nat) :
    ∀ (mem : Mem) (addr j : Nat), j < bs.length →
      writeBytes mem addr bs (addr + j) = bs.getD j 0 := by
  induction bs with
  | nil => intro mem addr j hj; simp at hj
  | cons b bs ih =>
    intro mem addr j hj
    match j with
    | 0 =>
      show writeBytes (fun y => if y = addr then b else mem y) (addr + 1) bs (addr + 0) = b
      rw [writeBytes_of_lt bs _ (addr + 1) (addr + 0) (by omega)]
      simp
    | j + 1 =>
      show writeBytes (fun y => if y = addr then b else mem y) (addr + 1) bs (addr + (j + 1)) = bs.getD j 0
      have harith : addr + (j + 1) = (addr + 1) + j := by omega
      rw [harith, ih _ (addr + 1) j (by simpa using hj)]

theorem encodeLE_length : ∀ (w v : Nat), (encodeLE w v).length = w := by
  intro w
  induction w with
  | zero => intro v; rfl
  | succ w ih => intro v; show (encodeLE w (v / 256)).length + 1 = w + 1; rw [ih]

theorem encodeLE_getD :
    ∀ (w v j : Nat), j < w → (encodeLE w v).getD j 0 = v / 256 ^ j % 256 := by
  intro w
  induction w with
  | zero => intro v j hj; omega
  | succ w ih =>
    intro v j hj
    match j with
    | 0 => simp [encodeLE]
    | j + 1 =>
      show (encodeLE w (v / 256)).getD j 0 = v / 256 ^ (j + 1) % 256
      rw [ih (v / 256) j (by omega)]
      rw [Nat.div_div_eq_div_mul, Nat.pow_succ, Nat.mul_comm (256 ^ j) 256]

theorem decodeLE_encodeLE : ∀ (w v : Nat), decodeLE (encodeLE w v) = v % 256 ^ w := by
  intro w
  induction w with
  | zero => intro v; simp [encodeLE, decodeLE, Nat.mod_one]
  | succ w ih =>
    intro v
    show v % 256 + 256 * decodeLE (encodeLE w (v / 256)) = v % 256 ^ (w + 1)
    rw [ih (v / 256), Nat.pow_succ, Nat.mul_comm (256 ^ w) 256, Nat.mod_mul]

theorem runCleanup_isOk :
    ∀ (ids : List String) (qs : List String),
      ∃ qs2, runCleanup qs ids = Except.ok qs2 := by
  intro ids
  induction ids with
  | nil => intro qs; exact ⟨qs, rfl⟩
  | cons id rest ih => intro qs; exact ih (qs.erase id)

/-! Claim theorems. -/

/-- Claim C1: in the reference traffic, after the 8-byte value
0xBAADD00DCAFEFACE is written at 0x60 and the five distinct patterns
0xBAADD70DCAFEFACE through 0xBAADDB0DCAFEFACE at 0x70, 0x80, 0x90, 0xA0,
0xB0, every subsequent 8-byte read at each of those addresses, issued in
the same order as in the source, returns exactly the value written to that
specific address — the six values being pairwise distinct, no read returns
a value from a different address or a different in-flight write. -/
theorem c1_no_cross_address_corruption :
    (refResults.drop 10).map decodeLE =
      [0xBAADD00DCAFEFACE, 0xBAADD70DCAFEFACE, 0xBAADD80DCAFEFACE,
       0xBAADD90DCAFEFACE, 0xBAADDA0DCAFEFACE, 0xBAADDB0DCAFEFACE] ∧
    refResults.drop 10 =
      [encodeLE 8 0xBAADD00DCAFEFACE, encodeLE 8 0xBAADD70DCAFEFACE,
       encodeLE 8 0xBAADD80DCAFEFACE, encodeLE 8 0xBAADD90DCAFEFACE,
       encodeLE 8 0xBAADDA0DCAFEFACE, encodeLE 8 0xBAADDB0DCAFEFACE] ∧
    List.Pairwise (fun a b => a ≠ b)
      ([0xBAADD00DCAFEFACE, 0xBAADD70DCAFEFACE, 0xBAADD80DCAFEFACE,
        0xBAADD90DCAFEFACE, 0xBAADDA0DCAFEFACE, 0xBAADDB0DCAFEFACE] :
        List Nat) :=
  ⟨by decide, by decide, by decide⟩

/-- Claim C2: the codec encodes every multi-byte scalar value little-endian —
byte j of a w-byte encoding is the j-th base-256 digit of the value — and a
1-byte read at A + 2k after a 4-byte write of v at A on a fresh memory
yields the corresponding byte of the little-endian representation of v. -/
theorem c2_little_endian_codec :
    (∀ w v j, j < w → (encodeLE w v).getD j 0 = v / 256 ^ j % 256) ∧
    (∀ A v k, v < 2 ^ 32 →
      readBytes (writeBytes memZero A (encodeLE 4 v)) (A + 2 * k) 1 =
        [v / 256 ^ (2 * k) % 256]) := by
  refine ⟨encodeLE_getD, ?_⟩
  intro A v k hv
  show [writeBytes memZero A (encodeLE 4 v) (A + 2 * k)] =
    [v / 256 ^ (2 * k) % 256]
  by_cases hk : 2 * k < 4
  · rw [writeBytes_getD (encodeLE 4 v) memZero A (2 * k)
      (by rw [encodeLE_length]; exact hk)]
    rw [encodeLE_getD 4 v (2 * k) hk]
  · rw [writeBytes_of_ge (encodeLE 4 v) memZero A (A + 2 * k)
      (by rw [encodeLE_length]; omega)]
    have h1 : v < 256 ^ (2 * k) := by
      have h2 : (256 : Nat) ^ 4 = 2 ^ 32 := by norm_num
      have h3 : (256 : Nat) ^ 4 ≤ 256 ^ (2 * k) :=
        Nat.pow_le_pow_right (by norm_num) (by omega)
      omega
    rw [Nat.div_eq_of_lt h1]
    simp [memZero]

/-- Witness for C2 at concrete inputs: byte 2 of the 8-byte encoding of
0xBAADD00DCAFEFACE, and the 1-byte read at 0x50 + 2 after the 4-byte write
of 0xDEADBEEF at 0x50. -/
theorem c2_little_endian_codec_witness :
    (encodeLE 8 0xBAADD00DCAFEFACE).getD 2 0 =
        0xBAADD00DCAFEFACE / 256 ^ 2 % 256 ∧
      readBytes (writeBytes memZero 0x50 (encodeLE 4 0xDEADBEEF))
          (0x50 + 2 * 1) 1 =
        [0xDEADBEEF / 256 ^ (2 * 1) % 256] :=
  ⟨c2_little_endian_codec.1 8 0xBAADD00DCAFEFACE 2 (by decide),
   c2_little_endian_codec.2 0x50 0xDEADBEEF 1 (by norm_num)⟩

/-- Claim C3: in the reference traffic, writing the 4-byte value 0xBAADF00D
as four sequential 1-byte writes at 0x10, 0x18, 0x20, 0x28 and then issuing
a 1-byte read at each of those addresses returns, respectively, the bytes
0x0D, 0xF0, 0xAD, 0xBA. -/
theorem c3_sub_field_decomposition :
    (refResults.drop 4).take 4 = [[0x0D], [0xF0], [0xAD], [0xBA]] := by decide

/-- Claim C4: the 4-byte value 0xB0BACAFE written at 0x40 as a 2-element
2-byte buffer view reads back, reinterpreted as one 4-byte value, as exactly
0xB0BACAFE; and for every width w in 1,2,4,8, address A and in-range value
v, write followed by a w-byte read returns exactly the little-endian byte
representation of v, decoding back to v with no sign extension or rounding.-/
theorem c4_width_round_trip :
    decodeLE (refResults.getD 8 []) = 0xB0BACAFE ∧
    (∀ (mem : Mem) (A v w : Nat), w ∈ ([1, 2, 4, 8] : List Nat) →
      v < 2 ^ (8 * w) →
      readBytes (writeBytes mem A (encodeLE w v)) A w = encodeLE w v ∧
        decodeLE (readBytes (writeBytes mem A (encodeLE w v)) A w) = v) := by
  refine ⟨by decide, ?_⟩
  intro mem A v w _ hv
  have hr : readBytes (writeBytes mem A (encodeLE w v)) A w = encodeLE w v := by
    have h := readBytes_writeBytes (encodeLE w v) mem A
    rwa [encodeLE_length] at h
  refine ⟨hr, ?_⟩
  rw [hr, decodeLE_encodeLE]
  have hlt : v < 256 ^ w := by
    have h28 : (256 : Nat) = 2 ^ 8 := by norm_num
    rw [h28, ← Nat.pow_mul]
    exact hv
  exact Nat.mod_eq_of_lt hlt

/-- Witness for C4 at the concrete input of the reference traffic: width 4,
address 0x40, value 0xB0BACAFE. -/
theorem c4_width_round_trip_witness :
    readBytes (writeBytes memZero 0x40 (encodeLE 4 0xB0BACAFE)) 0x40 4 =
        encodeLE 4 0xB0BACAFE ∧
      decodeLE (readBytes (writeBytes memZero 0x40 (encodeLE 4 0xB0BACAFE))
          0x40 4) =
        0xB0BACAFE :=
  c4_width_round_trip.2 memZero 0x40 0xB0BACAFE 4 (by decide) (by norm_num)

/-- Claim C5: a read issued on an Endpoint whose peer never responds — the
poll yields no frame at any tick — fails with Timeout once the configured
bound (the fuel) is exhausted rather than blocking indefinitely, and the
engine performs no automatic retry: the Timeout is the terminal result of
that call. -/
theorem c5_timeout_bounded (poll : Nat → Option Packet) (srcaddr len : Nat)
    (h : ∀ t, poll t = none) :
    ∀ fuel, readPoll poll srcaddr len fuel = Except.error UmiError.Timeout := by
  intro fuel
  induction fuel with
  | zero => rfl
  | succ fuel ih =>
    rw [readPoll, h fuel]
    exact ih

/-- Witness for C5 at a concrete never-responding peer and bound 8. -/
theorem c5_timeout_bounded_witness :
    readPoll (fun _ => none) 0x0000010000000000 4 8 =
      Except.error UmiError.Timeout :=
  c5_timeout_bounded (fun _ => none) 0x0000010000000000 4 (fun _ => rfl) 8

/-- Claim C6: queue reset never fails — delete_queue succeeds when called
twice in a row on the same identifier, is a no-op and not an error on a
queue that was never created, and main's whole cleanup loop, whose list
names the host2dut identifier twice, succeeds from any queue store. -/
theorem c6_idempotent_reset (qs : List String) (id : String) :
    (∃ qs2, delete_queue qs id = Except.ok qs2) ∧
    (id ∉ qs → delete_queue qs id = Except.ok qs) ∧
    (∃ qs3,
      (match delete_queue qs id with
       | Except.ok q2 => delete_queue q2 id
       | Except.error e => Except.error e) = Except.ok qs3) ∧
    cleanupIds.count "host2dut_0.q" = 2 ∧
    (∃ qs4, runCleanup qs cleanupIds = Except.ok qs4) := by
  refine ⟨⟨qs.erase id, rfl⟩, ?_, ⟨(qs.erase id).erase id, rfl⟩, by decide,
    runCleanup_isOk cleanupIds qs⟩
  intro hid
  show Except.ok (qs.erase id) = Except.ok qs
  rw [List.erase_of_not_mem hid]

/-- Witness for C6: deleting a never-created queue from a store holding only
the sb2dut identifier is a no-op that succeeds. -/
theorem c6_idempotent_reset_witness :
    delete_queue ["sb2dut_0.q"] "host2dut_0.q" = Except.ok ["sb2dut_0.q"] :=
  (c6_idempotent_reset ["sb2dut_0.q"] "host2dut_0.q").2.1 (by decide)

/-- Claim C7: for every write, posted or not, no response is awaited: the
call only appends the one request frame to the tx queue and leaves the rx
queue unchanged, and the posted flag selects nothing but the opcode of the
emitted frame — address, length, payload and source address are identical
for the two flavours. -/
theorem c7_writes_fire_and_forget (ep : Endpoint) (addr : Nat)
    (data : List Nat) (src : Nat) (posted : Bool) :
    (engineWrite ep addr data src posted).rx = ep.rx ∧
    (engineWrite ep addr data src posted).tx =
      ep.tx ++
        [{ opcode := if posted then Opcode.WRITE_POSTED else Opcode.WRITE,
           address := addr, length := data.length, payload := data,
           srcaddr := src }] ∧
    (engineWrite ep addr data src true).tx.map
        (fun p => (p.address, p.length, p.payload, p.srcaddr)) =
      (engineWrite ep addr data src false).tx.map
        (fun p => (p.address, p.length, p.payload, p.srcaddr)) := by
  refine ⟨rfl, rfl, ?_⟩
  simp [engineWrite]

/-- Claim C8: every access of the reference traffic whose address lies in
the control/status range 0x60000000-0x70000014 is issued on the side-band
endpoint sb, with writes posted and reads blocking, for either topology;
and the engine builds write and read-request frames by one uniform equation
over all addresses — no special-casing by address range. -/
theorem c8_sideband_uniform (topo : String) (a : Access)
    (ha : a ∈ mainAccesses topo) :
    (0x60000000 ≤ a.addr ∧ a.addr ≤ 0x70000014 →
      a.ep = EpName.sb ∧ (a.kind = AccessKind.write → a.posted = true) ∧
        (a.kind = AccessKind.read → a.blocking = true)) ∧
    (∀ (ep : Endpoint) (addr : Nat) (data : List Nat) (src : Nat)
        (posted : Bool),
      engineWrite ep addr data src posted =
        { ep with
          tx := ep.tx ++
            [{ opcode := if posted then Opcode.WRITE_POSTED else Opcode.WRITE,
               address := addr, length := data.length, payload := data,
               srcaddr := src }] } ∧
      engineReadRequest addr data.length src =
        { opcode := Opcode.READ_REQUEST, address := addr,
          length := data.length, payload := [], srcaddr := src }) := by
  constructor
  · have hall : ∀ x ∈ mainAccesses topo,
        0x60000000 ≤ x.addr ∧ x.addr ≤ 0x70000014 →
          x.ep = EpName.sb ∧ (x.kind = AccessKind.write → x.posted = true) ∧
            (x.kind = AccessKind.read → x.blocking = true) := by
      by_cases htopo : topo = "3d"
      · subst htopo
        decide
      · simp only [mainAccesses, if_neg htopo]
        decide
    exact fun hrange => hall a ha hrange
  · exact fun ep addr data src posted => ⟨rfl, rfl⟩

/-- Witness for C8 at the first side-band access of the 2d traffic: the
posted write to 0x7000000C on sb. -/
theorem c8_sideband_uniform_witness :
    ((0x60000000 : Nat) ≤ 0x7000000C ∧ (0x7000000C : Nat) ≤ 0x70000014 →
      EpName.sb = EpName.sb ∧
        (AccessKind.write = AccessKind.write → true = true) ∧
        (AccessKind.write = AccessKind.read → true = true)) ∧
    (∀ (ep : Endpoint) (addr : Nat) (data : List Nat) (src : Nat)
        (posted : Bool),
      engineWrite ep addr data src posted =
        { ep with
          tx := ep.tx ++
            [{ opcode := if posted then Opcode.WRITE_POSTED else Opcode.WRITE,
               address := addr, length := data.length, payload := data,
               srcaddr := src }] } ∧
      engineReadRequest addr data.length src =
        { opcode := Opcode.READ_REQUEST, address := addr,
          length := data.length, payload := [], srcaddr := src }) :=
  c8_sideband_uniform "2d"
    { ep := EpName.sb, kind := AccessKind.write, addr := 0x7000000C,
      posted := true, blocking := true } (by decide)

/-- Claim C9, evaluated at the failing input: the parameter list of the def
statement of main binds host2dut and dut2host twice each, so it does not
bind each queue-identifier name at most once; the def statement is rejected
when the module is loaded. -/
theorem c9_main_duplicate_parameters :
    mainParamNames.count "host2dut" = 2 ∧
      mainParamNames.count "dut2host" = 2 ∧
      ¬ mainParamNames.Nodup := by decide

/-- Claim C10: build_testbench accepts exactly the topology strings 2d and
3d — for every other value it stops with ValueError Invalid topology before
the build step runs, and for 2d or 3d it goes on to run the build and
return the compiled simulator. -/
theorem c10_topology_validation (topo : String) :
    (topo ≠ "2d" → topo ≠ "3d" →
      (build_testbench topo).2 = Except.error "Invalid topology" ∧
        BuildAction.runBuild ∉ (build_testbench topo).1) ∧
    ((topo = "2d" ∨ topo = "3d") →
      (build_testbench topo).2 = Except.ok "vexe" ∧
        BuildAction.runBuild ∈ (build_testbench topo).1) := by
  constructor
  · intro h2 h3
    have hcond : ¬ (topo = "2d" ∨ topo = "3d") := by tauto
    unfold build_testbench
    rw [if_neg hcond]
    exact ⟨rfl, by decide⟩
  · intro h
    unfold build_testbench
    rw [if_pos h]
    exact ⟨rfl, by decide⟩

/-- Witness for C10 at the concrete topologies xy (invalid) and 2d (valid).-/
theorem c10_topology_validation_witness :
    ((build_testbench "xy").2 = Except.error "Invalid topology" ∧
      BuildAction.runBuild ∉ (build_testbench "xy").1) ∧
    ((build_testbench "2d").2 = Except.ok "vexe" ∧
      BuildAction.runBuild ∈ (build_testbench "2d").1) :=
  ⟨(c10_topology_validation "xy").1 (by decide) (by decide),
   (c10_topology_validation "2d").2 (Or.inl rfl)⟩
